import Mathlib

/-
Verification of the Python client layer of the spark-nlp repository.

The embedding below translates the four Python source files into Lean:
  sparknlp/pretrained.py            (ResourceDownloader, PretrainedPipeline, printProgress)
  sparknlp/internal/init file       (bridge wrapper classes over the JVM bridge)
  sparknlp/annotator/embeddings/xlnet_embeddings.py (XlnetEmbeddings parameter schema)
  sparknlp/spellchecker/rnn_lm.py   (RNNLM trainer: parse, learning rate, batch_train)

Python exceptions are modelled with Except; remote JVM calls are opaque and
modelled as data (the class name plus the marshalled arguments); the pyspark
parameter machinery is modelled as a pair of explicit maps (set values and
default values) with the usual set-before-default lookup.
-/

/-- Python exception kinds raised by the embedded code. -/
inductive PyError where
  | typeError (msg : String)
  | exception (msg : String)
deriving DecidableEq

/-- Python argument values marshalled to the bridge (only the shapes the
embedded call sites use: None and strings). -/
inductive PyValue where
  | none
  | str (s : String)
deriving DecidableEq

/-- A constructed bridge wrapper: remote Java class name plus the positional
arguments handed to the remote constructor (ExtendedJavaWrapper state). -/
structure JavaWrapper where
  javaClass : String
  args : List PyValue
deriving DecidableEq

/-- Opaque remote handle returned by the .apply() of a bridge wrapper; locally
it is known only by the call that produced it. -/
structure JavaHandle where
  call : JavaWrapper
deriving DecidableEq

/-- Remote invocation of a constructed wrapper (the .apply() call); the remote
side is external, so the handle is the opaque call descriptor. -/
def ExtendedJavaWrapper.apply (w : JavaWrapper) : JavaHandle := ⟨w⟩

/-- Embeds the class _DownloadModel of the internal module.  Its Python
constructor binds exactly five required positional parameters
(reader, name, language, remote_loc, validator), none of which has a default;
Python raises TypeError when a call supplies any other number of positional
arguments, which the list pattern match reproduces. -/
def constructDownloadModel (args : List PyValue) : Except PyError JavaWrapper :=
  match args with
  | [reader, name, language, remote_loc, PyValue.str validator] =>
      Except.ok
        { javaClass := "com.johnsnowlabs.nlp.pretrained." ++ validator ++ ".downloadModel",
          args := [reader, name, language, remote_loc] }
  | _ =>
      Except.error (PyError.typeError
        "DownloadModel constructor: missing required positional argument: validator")

/-- Embeds the class _ShowPublicModels of the internal module.  Its Python
constructor binds exactly three required positional parameters
(annotator, lang, version), none of which has a default. -/
def constructShowPublicModels (args : List PyValue) : Except PyError JavaWrapper :=
  match args with
  | [a, l, v] =>
      Except.ok
        { javaClass :=
            "com.johnsnowlabs.nlp.pretrained.PythonResourceDownloader.showPublicModels",
          args := [a, l, v] }
  | _ =>
      Except.error (PyError.typeError
        "ShowPublicModels constructor: missing 3 required positional arguments: annotator, lang, version")

/-- The reader argument of downloadModel: a pretrained-model companion class;
only its name attribute is read before the bridge call. -/
structure PretrainedReader where
  name : String
deriving DecidableEq

/-- Result of a successful downloadModel call: the reader class applied to the
remote handle (reader(classname=None, java_model=j_obj)). -/
inductive DownloadOutcome where
  | model (readerName : String) (java_model : JavaHandle)
deriving DecidableEq

/-- Embeds ResourceDownloader.downloadModel of pretrained.py.  The printed
progress text and the cosmetic polling thread are I/O effects with no local
data flow and are omitted; the bridge construction, the remote apply and the
reader wrapping are kept.  The call site passes exactly four positional
arguments (reader.name, name, language, remote_loc) to the wrapper
constructor. -/
def ResourceDownloader.downloadModel (reader : PretrainedReader)
    (name language : String) (remote_loc : PyValue) : Except PyError DownloadOutcome :=
  match constructDownloadModel
      [PyValue.str reader.name, PyValue.str name, PyValue.str language, remote_loc] with
  | Except.error e => Except.error e
  | Except.ok w => Except.ok (DownloadOutcome.model reader.name (ExtendedJavaWrapper.apply w))

/-- Embeds ResourceDownloader.showPublicModels of pretrained.py: it prints a
line and constructs _ShowPublicModels with zero positional arguments, then
applies it. -/
def ResourceDownloader.showPublicModels : Except PyError JavaHandle :=
  match constructShowPublicModels [] with
  | Except.error e => Except.error e
  | Except.ok w => Except.ok (ExtendedJavaWrapper.apply w)

/-- A Spark DataFrame, modelled by its column names (the only attribute the
embedded code touches). -/
structure SparkDataFrame where
  cols : List String
deriving DecidableEq

/-- Embeds DataFrame.withColumnRenamed of Spark: renames every column equal to
the existing name; a no-op when the column is absent. -/
def SparkDataFrame.withColumnRenamed (df : SparkDataFrame) (existing new : String) :
    SparkDataFrame :=
  { cols := df.cols.map (fun c => if c = existing then new else c) }

/-- The runtime type of the target argument of annotate/fullAnnotate: the
Python code discriminates with type(target) is DataFrame / list / str, and
everything else falls to the error branch. -/
inductive PyTarget where
  | dataFrame (df : SparkDataFrame)
  | list (xs : List String)
  | str (s : String)
  | other
deriving DecidableEq

/-- Result of an annotate/fullAnnotate call: either the transformed DataFrame
returned by model.transform, or the light-pipeline result (opaque annotation
maps produced remotely). -/
inductive AnnotateResult where
  | frame (df : SparkDataFrame)
  | lightResult (r : List (String × List String))
deriving DecidableEq

/-- Python truthiness test applied to the column argument (not column): the
column is a string or None, so falsy means None or the empty string. -/
def pyFalsy : Option String → Bool
  | Option.none => true
  | Option.some s => s.isEmpty

/-- A PretrainedPipeline after construction.  The wrapped remote model and the
light pipeline live in the external runtime; their behaviour is abstract, so
they are fields: transform is model.transform, lightAnnotate and
lightFullAnnotate are the annotate/fullAnnotate of the light pipeline. -/
structure PretrainedPipeline where
  transform : SparkDataFrame → SparkDataFrame
  lightAnnotate : PyTarget → List (String × List String)
  lightFullAnnotate : PyTarget → List (String × List String)

/-- Embeds PretrainedPipeline.annotate of pretrained.py: a DataFrame target
with a falsy column raises; a DataFrame target with a truthy column is
renamed to text and transformed; a list or string goes to the light pipeline;
anything else raises. -/
def PretrainedPipeline.annotate (p : PretrainedPipeline) (target : PyTarget)
    (column : Option String) : Except PyError AnnotateResult :=
  match target with
  | PyTarget.dataFrame df =>
      if pyFalsy column then
        Except.error (PyError.exception "annotate() column arg needed when targeting a DataFrame")
      else
        Except.ok (AnnotateResult.frame
          (p.transform (df.withColumnRenamed (column.getD "") "text")))
  | PyTarget.list xs =>
      Except.ok (AnnotateResult.lightResult (p.lightAnnotate (PyTarget.list xs)))
  | PyTarget.str s =>
      Except.ok (AnnotateResult.lightResult (p.lightAnnotate (PyTarget.str s)))
  | PyTarget.other =>
      Except.error (PyError.exception
        "target must be either a spark DataFrame, a list of strings or a string")

/-- Embeds PretrainedPipeline.fullAnnotate of pretrained.py; identical to
annotate except that list and string targets go to the fullAnnotate method of
the light pipeline. -/
def PretrainedPipeline.fullAnnotate (p : PretrainedPipeline) (target : PyTarget)
    (column : Option String) : Except PyError AnnotateResult :=
  match target with
  | PyTarget.dataFrame df =>
      if pyFalsy column then
        Except.error (PyError.exception "annotate() column arg needed when targeting a DataFrame")
      else
        Except.ok (AnnotateResult.frame
          (p.transform (df.withColumnRenamed (column.getD "") "text")))
  | PyTarget.list xs =>
      Except.ok (AnnotateResult.lightResult (p.lightFullAnnotate (PyTarget.list xs)))
  | PyTarget.str s =>
      Except.ok (AnnotateResult.lightResult (p.lightFullAnnotate (PyTarget.str s)))
  | PyTarget.other =>
      Except.error (PyError.exception
        "target must be either a spark DataFrame, a list of strings or a string")

/-- Whether an embedded Python call raised. -/
def raised {α : Type} : Except PyError α → Bool
  | Except.error _ => true
  | Except.ok _ => false

/-- The parameter values of the fixed XlnetEmbeddings schema (the five
parameters declared for the class: batchSize, dimension, maxSentenceLength,
caseSensitive, configProtoBytes); a map assigns each an optional value. -/
structure XlnetParamMap where
  batchSize : Option Int
  dimension : Option Int
  maxSentenceLength : Option Int
  caseSensitive : Option Bool
  configProtoBytes : Option (List Int)
deriving DecidableEq

/-- The map assigning no parameter a value. -/
def XlnetParamMap.empty : XlnetParamMap :=
  { batchSize := Option.none, dimension := Option.none, maxSentenceLength := Option.none,
    caseSensitive := Option.none, configProtoBytes := Option.none }

/-- An XlnetEmbeddings annotator facade: the remote class name, the map of
default parameter values and the map of explicitly set parameter values
(the two maps the pyspark Params machinery keeps). -/
structure XlnetEmbeddings where
  classname : String
  defaultParamMap : XlnetParamMap
  paramMap : XlnetParamMap
deriving DecidableEq

/-- Embeds XlnetEmbeddings construction with no parameters explicitly set:
the constructor records the Java class name and then calls
_setDefault(batchSize=8, dimension=768, maxSentenceLength=128,
caseSensitive=True); no default is ever installed for configProtoBytes. -/
def XlnetEmbeddings.fresh : XlnetEmbeddings :=
  { classname := "com.johnsnowlabs.nlp.embeddings.XlnetEmbeddings",
    defaultParamMap :=
      { XlnetParamMap.empty with
          batchSize := Option.some 8, dimension := Option.some 768,
          maxSentenceLength := Option.some 128, caseSensitive := Option.some true },
    paramMap := XlnetParamMap.empty }

/-- The effective value of each parameter, with the pyspark getOrDefault
lookup: an explicitly set value shadows the default. -/
def XlnetEmbeddings.effective (e : XlnetEmbeddings) : XlnetParamMap :=
  { batchSize := e.paramMap.batchSize.orElse (fun _ => e.defaultParamMap.batchSize),
    dimension := e.paramMap.dimension.orElse (fun _ => e.defaultParamMap.dimension),
    maxSentenceLength :=
      e.paramMap.maxSentenceLength.orElse (fun _ => e.defaultParamMap.maxSentenceLength),
    caseSensitive := e.paramMap.caseSensitive.orElse (fun _ => e.defaultParamMap.caseSensitive),
    configProtoBytes :=
      e.paramMap.configProtoBytes.orElse (fun _ => e.defaultParamMap.configProtoBytes) }

/-- Embeds XlnetEmbeddings.setMaxSentenceLength: self._set(maxSentenceLength=value)
records the value in the set-parameter map and returns the annotator. -/
def XlnetEmbeddings.setMaxSentenceLength (e : XlnetEmbeddings) (value : Int) : XlnetEmbeddings :=
  { e with paramMap := { e.paramMap with maxSentenceLength := Option.some value } }

/-- One console write of the printProgress loop of pretrained.py: an animated
bar line (done filled blocks, then dots), the final fully filled bar line, or
the trailing newline. -/
inductive ProgressWrite where
  | bar (done : Nat) (dots : Nat)
  | filledBar (done : Nat) (blocks : Nat)
  | newline
deriving DecidableEq

/-- Embeds the body of the printProgress while loop.  The stop argument gives
the value the polled stop closure returns at each iteration (it is read once
per iteration, after the sleep).  Fuel bounds the number of iterations the
embedding may unfold; a run that would iterate past the fuel is Option.none.
Each iteration writes the bar with the current done and max(2, dot) dots,
increments done, decrements dot (an Int, as the Python value may go negative),
and on stop() writes the fully filled bar with the updated counters, breaks,
and the function writes a newline and returns. -/
def printProgressAux (stop : Nat → Bool) : Nat → Nat → Nat → Int → Option (List ProgressWrite)
  | 0, _, _, _ => Option.none
  | fuel + 1, i, done, dot =>
      let w := ProgressWrite.bar done (max 2 dot).toNat
      let done2 := done + 1
      let dot2 := dot - 1
      if stop i then
        Option.some [w, ProgressWrite.filledBar done2 (max 2 dot2).toNat, ProgressWrite.newline]
      else
        (printProgressAux stop fuel (i + 1) done2 dot2).map (fun ws => w :: ws)

/-- Embeds printProgress of pretrained.py: the loop starts with done = 1 and
dot = 7 and runs the body until the polled stop closure returns true. -/
def printProgress (stop : Nat → Bool) (fuel : Nat) : Option (List ProgressWrite) :=
  printProgressAux stop fuel 0 1 7

/-- Scans the characters of a line, accumulating the current token in reverse;
a whitespace character closes the current token (empty tokens are discarded,
as tf.string_split skips empty results). -/
def tfSplitAux : List Char → List Char → List String
  | [], acc => if acc.isEmpty then [] else [String.mk acc.reverse]
  | c :: cs, acc =>
      if c.isWhitespace then
        if acc.isEmpty then tfSplitAux cs []
        else String.mk acc.reverse :: tfSplitAux cs []
      else tfSplitAux cs (c :: acc)

/-- Embeds the tokenization performed by tf.string_split on a single input
line: the line is cut at whitespace and empty tokens are discarded. -/
def tfStringSplit (line : String) : List String :=
  tfSplitAux line.data []

/-- Embeds the local function parse of RNNLM: the line is split into tokens,
and the pair (values[:-1], values[1:]) is returned, each side converted
elementwise by tf.string_to_number; the numeric conversion is the elementwise
map f. -/
def parse (f : String → Int) (line : String) : List Int × List Int :=
  let values := tfStringSplit line
  (values.dropLast.map f, (values.drop 1).map f)

/-- Embeds tf.train.exponential_decay with staircase=True as the RNNLM
constructor instantiates it: the rate decays by the factor decayRate once
every decaySteps global steps, with truncating division of the step count. -/
def exponentialDecayStaircase (initialRate : ℚ) (globalStep decaySteps : Nat)
    (decayRate : ℚ) : ℚ :=
  initialRate * decayRate ^ (globalStep / decaySteps)

/-- Embeds the learning rate the RNNLM constructor feeds to its optimizer:
the staircase exponential decay (decay steps 150, rate 0.96) clamped from
below by final_learning_rate through tf.cond(lr less than final, final, lr). -/
def rnnlmLearningRate (initial_learning_rate final_learning_rate : ℚ) (globalStep : Nat) : ℚ :=
  let lr := exponentialDecayStaircase initial_learning_rate globalStep 150 (96 / 100)
  if lr < final_learning_rate then final_learning_rate else lr

/-- One event of a batch_train run: a full training pass over the training
data for a given epoch counter value, or the following validation pass. -/
inductive TrainEvent where
  | trainingPass (epoch : Nat)
  | validationPass (epoch : Nat)
deriving DecidableEq

/-- The local state of RNNLM.batch_train: the epoch counter, the best
validation perplexity so far (Option.none stands for the initial np.inf), the
patience counter, and the trace of passes performed. -/
structure BatchTrainState where
  epoch : Nat
  bestScore : Option ℚ
  patience : Int
  events : List TrainEvent
deriving DecidableEq

/-- Embeds one iteration of the outer while loop of RNNLM.batch_train: a full
training pass (the inner loop until the training data is exhausted), then a
full validation pass whose end-of-data handler computes the validation
perplexity devPpl epoch, updates bestScore and patience, and then sets
epoch = num_epochs unconditionally (the guard on patience is commented out in
the source) before breaking out of the validation loop. -/
def batchTrainStep (numEpochs : Nat) (devPpl : Nat → ℚ) (s : BatchTrainState) :
    BatchTrainState :=
  let s1 := { s with events := s.events ++ [TrainEvent.trainingPass s.epoch] }
  let s2 := { s1 with events := s1.events ++ [TrainEvent.validationPass s.epoch] }
  let dev := devPpl s.epoch
  let better :=
    match s2.bestScore with
    | Option.none => true
    | Option.some b => decide (dev < b)
  let s3 :=
    if better then { s2 with patience := 5, bestScore := Option.some dev }
    else { s2 with patience := s2.patience - 1 }
  { s3 with epoch := numEpochs }

/-- Embeds the outer while loop of RNNLM.batch_train: while epoch is below
num_epochs, run one iteration. -/
def batchTrainLoop (numEpochs : Nat) (devPpl : Nat → ℚ) (s : BatchTrainState) :
    BatchTrainState :=
  if h : s.epoch < numEpochs then
    batchTrainLoop numEpochs devPpl (batchTrainStep numEpochs devPpl s)
  else s
termination_by numEpochs - s.epoch
decreasing_by
  simp only [batchTrainStep]
  omega

/-- Embeds RNNLM.batch_train: best_score starts at np.inf, patience at 5, the
epoch counter at 0, and the outer loop runs; devPpl gives the validation
perplexity the session computes for each epoch. -/
def batchTrain (numEpochs : Nat) (devPpl : Nat → ℚ) : BatchTrainState :=
  batchTrainLoop numEpochs devPpl
    { epoch := 0, bestScore := Option.none, patience := 5, events := [] }

/-- The number of outer-loop iterations a batch_train run performed: each
iteration contributes exactly one training pass to the trace. -/
def outerIterations (s : BatchTrainState) : Nat :=
  s.events.countP (fun e =>
    match e with
    | TrainEvent.trainingPass _ => true
    | TrainEvent.validationPass _ => false)

/-- Claim C1: ResourceDownloader.downloadModel is claimed to construct
_DownloadModel(reader.name, name, language, remote_loc) successfully and
return the wrapped remote handle.  In the code the _DownloadModel constructor
requires a fifth positional argument, validator, which downloadModel never
passes, so every invocation raises a TypeError locally and the remote call is
never reached. -/
theorem downloadModel_always_raises (reader : PretrainedReader)
    (name language : String) (remote_loc : PyValue) :
    ResourceDownloader.downloadModel reader name language remote_loc =
      Except.error (PyError.typeError
        "DownloadModel constructor: missing required positional argument: validator") := rfl

/-- Claim C4: ResourceDownloader.showPublicModels is claimed to construct the
_ShowPublicModels bridge wrapper successfully and forward the call to the
remote side.  In the code the _ShowPublicModels constructor requires three
positional arguments (annotator, lang, version) and showPublicModels passes
none, so the single possible invocation raises a TypeError locally. -/
theorem showPublicModels_raises :
    ResourceDownloader.showPublicModels =
      Except.error (PyError.typeError
        "ShowPublicModels constructor: missing 3 required positional arguments: annotator, lang, version") := rfl

/-- Claim C5: a freshly constructed XlnetEmbeddings with no parameters
explicitly set has effective defaults batchSize = 8, dimension = 768,
maxSentenceLength = 128, caseSensitive = true, and configProtoBytes has no
default and hence no effective value. -/
theorem xlnet_default_params :
    XlnetEmbeddings.fresh.effective.batchSize = Option.some 8 ∧
    XlnetEmbeddings.fresh.effective.dimension = Option.some 768 ∧
    XlnetEmbeddings.fresh.effective.maxSentenceLength = Option.some 128 ∧
    XlnetEmbeddings.fresh.effective.caseSensitive = Option.some true ∧
    XlnetEmbeddings.fresh.effective.configProtoBytes = Option.none ∧
    XlnetEmbeddings.fresh.defaultParamMap.configProtoBytes = Option.none ∧
    XlnetEmbeddings.fresh.paramMap = XlnetParamMap.empty :=
  ⟨rfl, rfl, rfl, rfl, rfl, rfl, rfl⟩

/-- Claim C6: setMaxSentenceLength value sets the maxSentenceLength parameter
to the given value, leaves every other parameter of the fixed schema
(batchSize, dimension, caseSensitive, configProtoBytes) unchanged, both as
set values and as defaults, and the annotator it returns carries exactly that
update, so setter calls chain. -/
theorem setMaxSentenceLength_spec (e : XlnetEmbeddings) (value : Int) :
    (e.setMaxSentenceLength value).effective.maxSentenceLength = Option.some value ∧
    (e.setMaxSentenceLength value).effective.batchSize = e.effective.batchSize ∧
    (e.setMaxSentenceLength value).effective.dimension = e.effective.dimension ∧
    (e.setMaxSentenceLength value).effective.caseSensitive = e.effective.caseSensitive ∧
    (e.setMaxSentenceLength value).effective.configProtoBytes = e.effective.configProtoBytes ∧
    (e.setMaxSentenceLength value).classname = e.classname ∧
    (e.setMaxSentenceLength value).defaultParamMap = e.defaultParamMap ∧
    (e.setMaxSentenceLength value).paramMap =
      { e.paramMap with maxSentenceLength := Option.some value } :=
  ⟨rfl, rfl, rfl, rfl, rfl, rfl, rfl, rfl⟩

/-- Claim C10: for every global step and every final learning rate at most the
initial one, the learning rate fed to the optimizer equals
max(initial * 0.96 ^ (step / 150), final), and it never falls below the final
learning rate. -/
theorem learningRate_clamped_max (initial_learning_rate final_learning_rate : ℚ)
    (globalStep : Nat) (h : final_learning_rate ≤ initial_learning_rate) :
    rnnlmLearningRate initial_learning_rate final_learning_rate globalStep =
      max (initial_learning_rate * (96 / 100) ^ (globalStep / 150)) final_learning_rate ∧
    final_learning_rate ≤
      rnnlmLearningRate initial_learning_rate final_learning_rate globalStep := by
  unfold rnnlmLearningRate exponentialDecayStaircase
  constructor
  · by_cases hlt :
      initial_learning_rate * (96 / 100 : ℚ) ^ (globalStep / 150) < final_learning_rate
    · simp only [hlt, if_true]
      exact (max_eq_right hlt.le).symm
    · simp only [hlt, if_false]
      exact (max_eq_left (le_of_not_lt hlt)).symm
  · by_cases hlt :
      initial_learning_rate * (96 / 100 : ℚ) ^ (globalStep / 150) < final_learning_rate
    · simp [hlt]
    · simp only [hlt, if_false]
      exact le_of_not_lt hlt

/-- Witness for claim C10 at initial rate 1, final rate 1/1000, step 300. -/
theorem learningRate_clamped_max_witness :
    (1 : ℚ) / 1000 ≤ 1 ∧
    (rnnlmLearningRate 1 (1 / 1000) 300 =
        max ((1 : ℚ) * (96 / 100) ^ (300 / 150)) (1 / 1000) ∧
      (1 : ℚ) / 1000 ≤ rnnlmLearningRate 1 (1 / 1000) 300) :=
  ⟨by norm_num, learningRate_clamped_max 1 (1 / 1000) 300 (by norm_num)⟩

/-- Claim C9: for every input line whose tokenization yields n tokens with
n at least 1, parse returns two sequences of length n - 1; the first is the
token sequence without its last element and the second is the token sequence
shifted left by one position (elementwise through the numeric conversion f). -/
theorem parse_shift (f : String → Int) (line : String) (n : Nat)
    (hn : (tfStringSplit line).length = n) (h1 : 1 ≤ n) :
    (parse f line).1.length = n - 1 ∧
    (parse f line).2.length = n - 1 ∧
    (∀ i : Nat, i < n - 1 →
      (parse f line).1.get? i = ((tfStringSplit line).get? i).map f ∧
      (parse f line).2.get? i = ((tfStringSplit line).get? (i + 1)).map f) := by
  unfold parse
  refine ⟨?_, ?_, ?_⟩
  · simp [List.length_dropLast, hn]
  · simp [List.length_drop, hn]
  · intro i hi
    constructor
    · rw [List.get?_map, List.dropLast_eq_take, List.get?_take]
      omega
    · rw [List.get?_map, List.get?_drop, Nat.add_comm 1 i]

/-- Witness for claim C9 on the line 7 8 9 (three tokens) with a concrete
numeric conversion. -/
theorem parse_shift_witness :
    (tfStringSplit "7 8 9").length = 3 ∧ 1 ≤ 3 ∧
    ((parse (fun s => (s.toNat?.getD 0 : Int)) "7 8 9").1.length = 3 - 1 ∧
      (parse (fun s => (s.toNat?.getD 0 : Int)) "7 8 9").2.length = 3 - 1 ∧
      (∀ i : Nat, i < 3 - 1 →
        (parse (fun s => (s.toNat?.getD 0 : Int)) "7 8 9").1.get? i =
          ((tfStringSplit "7 8 9").get? i).map (fun s => (s.toNat?.getD 0 : Int)) ∧
        (parse (fun s => (s.toNat?.getD 0 : Int)) "7 8 9").2.get? i =
          ((tfStringSplit "7 8 9").get? (i + 1)).map (fun s => (s.toNat?.getD 0 : Int)))) :=
  ⟨by decide, by decide,
    parse_shift (fun s => (s.toNat?.getD 0 : Int)) "7 8 9" 3 (by decide) (by decide)⟩

/-- Claim C3: annotate raises exactly when the target is a DataFrame with a
falsy column argument or the target is none of DataFrame, list, string; in
every other case it delegates (model.transform after renaming the column to
text for a DataFrame, the light-pipeline annotate for a list or a string) and
returns the delegated result. -/
theorem annotate_raises_iff (p : PretrainedPipeline) (target : PyTarget)
    (column : Option String) :
    (raised (p.annotate target column) = true ↔
      ((∃ df, target = PyTarget.dataFrame df) ∧ pyFalsy column = true) ∨
        target = PyTarget.other) ∧
    (∀ df, target = PyTarget.dataFrame df → pyFalsy column = false →
      p.annotate target column =
        Except.ok (AnnotateResult.frame
          (p.transform (df.withColumnRenamed (column.getD "") "text")))) ∧
    (∀ xs, target = PyTarget.list xs →
      p.annotate target column =
        Except.ok (AnnotateResult.lightResult (p.lightAnnotate (PyTarget.list xs)))) ∧
    (∀ s, target = PyTarget.str s →
      p.annotate target column =
        Except.ok (AnnotateResult.lightResult (p.lightAnnotate (PyTarget.str s)))) := by
  refine ⟨?_, ?_, ?_, ?_⟩
  · cases target with
    | dataFrame df =>
        by_cases hc : pyFalsy column = true
        · simp [PretrainedPipeline.annotate, raised, hc]
        · simp [PretrainedPipeline.annotate, raised, hc]
    | list xs => simp [PretrainedPipeline.annotate, raised]
    | str s => simp [PretrainedPipeline.annotate, raised]
    | other => simp [PretrainedPipeline.annotate, raised]
  · intro df hdf hc
    subst hdf
    simp [PretrainedPipeline.annotate, hc]
  · intro xs hxs
    subst hxs
    rfl
  · intro s hs
    subst hs
    rfl

/-- Witness for claim C3 at a concrete pipeline (identity transform, empty
light results), a one-column DataFrame target and the column sentence. -/
theorem annotate_raises_iff_witness :
    (raised
        (PretrainedPipeline.annotate
          { transform := fun df => df, lightAnnotate := fun _ => [],
            lightFullAnnotate := fun _ => [] }
          (PyTarget.dataFrame { cols := ["sentence"] }) (Option.some "sentence")) = true ↔
      ((∃ df, PyTarget.dataFrame { cols := ["sentence"] } = PyTarget.dataFrame df) ∧
          pyFalsy (Option.some "sentence") = true) ∨
        PyTarget.dataFrame { cols := ["sentence"] } = PyTarget.other) ∧
    (∀ df, PyTarget.dataFrame { cols := ["sentence"] } = PyTarget.dataFrame df →
      pyFalsy (Option.some "sentence") = false →
      PretrainedPipeline.annotate
          { transform := fun df => df, lightAnnotate := fun _ => [],
            lightFullAnnotate := fun _ => [] }
          (PyTarget.dataFrame { cols := ["sentence"] }) (Option.some "sentence") =
        Except.ok (AnnotateResult.frame
          ((fun df => df)
            (df.withColumnRenamed ((Option.some "sentence").getD "") "text")))) ∧
    (∀ xs, PyTarget.dataFrame { cols := ["sentence"] } = PyTarget.list xs →
      PretrainedPipeline.annotate
          { transform := fun df => df, lightAnnotate := fun _ => [],
            lightFullAnnotate := fun _ => [] }
          (PyTarget.dataFrame { cols := ["sentence"] }) (Option.some "sentence") =
        Except.ok (AnnotateResult.lightResult ((fun _ => []) (PyTarget.list xs)))) ∧
    (∀ s, PyTarget.dataFrame { cols := ["sentence"] } = PyTarget.str s →
      PretrainedPipeline.annotate
          { transform := fun df => df, lightAnnotate := fun _ => [],
            lightFullAnnotate := fun _ => [] }
          (PyTarget.dataFrame { cols := ["sentence"] }) (Option.some "sentence") =
        Except.ok (AnnotateResult.lightResult ((fun _ => []) (PyTarget.str s)))) :=
  annotate_raises_iff
    { transform := fun df => df, lightAnnotate := fun _ => [],
      lightFullAnnotate := fun _ => [] }
    (PyTarget.dataFrame { cols := ["sentence"] }) (Option.some "sentence")

/-- Claim C8: on a DataFrame target with a truthy (non-empty) column name,
annotate and fullAnnotate compute the same result: both rename the column to
text and return model.transform of the renamed frame. -/
theorem annotate_fullAnnotate_agree (p : PretrainedPipeline) (df : SparkDataFrame)
    (c : String) (hc : c ≠ "") :
    p.annotate (PyTarget.dataFrame df) (Option.some c) =
      p.fullAnnotate (PyTarget.dataFrame df) (Option.some c) ∧
    p.annotate (PyTarget.dataFrame df) (Option.some c) =
      Except.ok (AnnotateResult.frame (p.transform (df.withColumnRenamed c "text"))) := by
  have hfalsy : pyFalsy (Option.some c) = false := by
    cases hemp : c.isEmpty
    · simp [pyFalsy, hemp]
    · exact absurd ((String.isEmpty_iff c).mp hemp) hc
  constructor
  · simp [PretrainedPipeline.annotate, PretrainedPipeline.fullAnnotate, hfalsy]
  · simp [PretrainedPipeline.annotate, hfalsy]

/-- Witness for claim C8 at a concrete pipeline, DataFrame and column. -/
theorem annotate_fullAnnotate_agree_witness :
    PretrainedPipeline.annotate
        { transform := fun df => df, lightAnnotate := fun _ => [],
          lightFullAnnotate := fun _ => [("x", ["y"])] }
        (PyTarget.dataFrame { cols := ["sentence", "id"] }) (Option.some "sentence") =
      PretrainedPipeline.fullAnnotate
        { transform := fun df => df, lightAnnotate := fun _ => [],
          lightFullAnnotate := fun _ => [("x", ["y"])] }
        (PyTarget.dataFrame { cols := ["sentence", "id"] }) (Option.some "sentence") ∧
    PretrainedPipeline.annotate
        { transform := fun df => df, lightAnnotate := fun _ => [],
          lightFullAnnotate := fun _ => [("x", ["y"])] }
        (PyTarget.dataFrame { cols := ["sentence", "id"] }) (Option.some "sentence") =
      Except.ok (AnnotateResult.frame
        ((fun df => df)
          (SparkDataFrame.withColumnRenamed { cols := ["sentence", "id"] } "sentence" "text"))) :=
  annotate_fullAnnotate_agree
    { transform := fun df => df, lightAnnotate := fun _ => [],
      lightFullAnnotate := fun _ => [("x", ["y"])] }
    { cols := ["sentence", "id"] } "sentence" (by decide)

/-- Any batch_train run with a positive epoch budget performs exactly one
outer-loop iteration: the first validation epilogue sets the epoch counter to
num_epochs, so the loop condition fails on re-entry. -/
lemma batchTrain_eq (n : Nat) (f : Nat → ℚ) (h : 1 ≤ n) :
    batchTrain n f =
      { epoch := n, bestScore := Option.some (f 0), patience := 5,
        events := [TrainEvent.trainingPass 0, TrainEvent.validationPass 0] } := by
  have h0 : (0 : Nat) < n := h
  rw [batchTrain, batchTrainLoop]
  simp only [h0, dif_pos]
  rw [batchTrainLoop]
  simp [batchTrainStep]

/-- Counterexample to claim C2: with num_epochs = 2 the outer while loop of
batch_train executes one iteration, not two. -/
theorem batchTrain_two_epochs_once :
    ¬ outerIterations (batchTrain 2 (fun _ => 1)) = 2 := by
  rw [batchTrain_eq 2 (fun _ => 1) (by norm_num)]
  decide

/-- Claim C2 as amended: for every num_epochs at least 1 the outer while loop
of batch_train executes exactly one iteration, consisting of one full
training pass followed by one validation pass, before the method terminates;
the validation epilogue unconditionally sets epoch to num_epochs because the
patience guard is commented out in the source. -/
theorem batchTrain_single_iteration (numEpochs : Nat) (devPpl : Nat → ℚ)
    (h : 1 ≤ numEpochs) :
    outerIterations (batchTrain numEpochs devPpl) = 1 ∧
    (batchTrain numEpochs devPpl).events =
      [TrainEvent.trainingPass 0, TrainEvent.validationPass 0] ∧
    (batchTrain numEpochs devPpl).epoch = numEpochs := by
  rw [batchTrain_eq numEpochs devPpl h]
  exact ⟨rfl, rfl, rfl⟩

/-- Witness for claim C2 as amended, at num_epochs = 3 and constant
validation perplexity 1. -/
theorem batchTrain_single_iteration_witness :
    outerIterations (batchTrain 3 (fun _ => 1)) = 1 ∧
    (batchTrain 3 (fun _ => 1)).events =
      [TrainEvent.trainingPass 0, TrainEvent.validationPass 0] ∧
    (batchTrain 3 (fun _ => 1)).epoch = 3 :=
  batchTrain_single_iteration 3 (fun _ => 1) (by norm_num)

/-- Whether a console write is an animated bar line (as opposed to the final
filled bar or the newline). -/
def isBarWrite : ProgressWrite → Bool
  | ProgressWrite.bar _ _ => true
  | _ => false

/-- One unfolding of the printProgress loop body. -/
lemma printProgressAux_step (stop : Nat → Bool) (fuel i done : Nat) (dot : Int) :
    printProgressAux stop (fuel + 1) i done dot =
      if stop i then
        Option.some [ProgressWrite.bar done (max 2 dot).toNat,
          ProgressWrite.filledBar (done + 1) (max 2 (dot - 1)).toNat, ProgressWrite.newline]
      else
        (printProgressAux stop fuel (i + 1) (done + 1) (dot - 1)).map
          (fun ws => ProgressWrite.bar done (max 2 dot).toNat :: ws) := rfl

/-- If the polled stop flag is true from iteration N on, the loop body
finishes within N + 1 - i iterations from iteration i, the result is stable
under extra fuel (no further iterations happen once stop is observed true),
and the trace is bar writes followed by the final filled bar and a newline. -/
lemma printProgressAux_total (stop : Nat → Bool) (N : Nat)
    (hs : ∀ k, N ≤ k → stop k = true) :
    ∀ (j i : Nat) (done : Nat) (dot : Int), N ≤ i + j →
      ∃ ws, printProgressAux stop (j + 1) i done dot = Option.some ws ∧
        (∀ extra, printProgressAux stop (j + 1 + extra) i done dot = Option.some ws) ∧
        ∃ pre d b, ws = pre ++ [ProgressWrite.filledBar d b, ProgressWrite.newline] ∧
          ∀ w ∈ pre, isBarWrite w = true := by
  intro j
  induction j with
  | zero =>
      intro i done dot hN
      have hstop : stop i = true := hs i (by omega)
      refine ⟨[ProgressWrite.bar done (max 2 dot).toNat,
        ProgressWrite.filledBar (done + 1) (max 2 (dot - 1)).toNat, ProgressWrite.newline],
        ?_, ?_, ?_⟩
      · rw [printProgressAux_step, hstop, if_pos rfl]
      · intro extra
        rw [show 0 + 1 + extra = extra + 1 by omega]
        rw [printProgressAux_step, hstop, if_pos rfl]
      · exact ⟨[ProgressWrite.bar done (max 2 dot).toNat], done + 1, (max 2 (dot - 1)).toNat,
          rfl, by intro w hw; simp at hw; subst hw; rfl⟩
  | succ j ih =>
      intro i done dot hN
      by_cases hstop : stop i = true
      · refine ⟨[ProgressWrite.bar done (max 2 dot).toNat,
          ProgressWrite.filledBar (done + 1) (max 2 (dot - 1)).toNat, ProgressWrite.newline],
          ?_, ?_, ?_⟩
        · rw [printProgressAux_step, hstop, if_pos rfl]
        · intro extra
          rw [show j + 1 + 1 + extra = (j + 1 + extra) + 1 by omega]
          rw [printProgressAux_step, hstop, if_pos rfl]
        · exact ⟨[ProgressWrite.bar done (max 2 dot).toNat], done + 1, (max 2 (dot - 1)).toNat,
            rfl, by intro w hw; simp at hw; subst hw; rfl⟩
      · have hstop2 : stop i = false := by
          cases h2 : stop i
          · rfl
          · exact absurd h2 hstop
        have hiN : N ≤ (i + 1) + j := by omega
        obtain ⟨ws, hws, hstab, pre, d, b, hshape, hpre⟩ := ih (i + 1) (done + 1) (dot - 1) hiN
        refine ⟨ProgressWrite.bar done (max 2 dot).toNat :: ws, ?_, ?_, ?_⟩
        · rw [show j + 1 + 1 = (j + 1) + 1 from rfl, printProgressAux_step, hstop2]
          rw [if_neg (by simp)]
          rw [hws]
          rfl
        · intro extra
          rw [show j + 1 + 1 + extra = (j + 1 + extra) + 1 by omega]
          rw [printProgressAux_step, hstop2]
          rw [if_neg (by simp)]
          rw [hstab extra]
          rfl
        · refine ⟨ProgressWrite.bar done (max 2 dot).toNat :: pre, d, b, by rw [hshape]; rfl, ?_⟩
          intro w hw
          cases hw with
          | head => rfl
          | tail _ hw2 => exact hpre w hw2

/-- Claim C7: for every stop predicate that is true from some iteration N on,
the printProgress loop terminates: with fuel N + 1 it produces a trace, the
trace does not change when more fuel is available (the loop performs no
iteration after observing stop true), and the trace consists of bar writes
followed by the final filled bar and the trailing newline. -/
theorem printProgress_terminates (stop : Nat → Bool) (N : Nat)
    (hs : ∀ k, N ≤ k → stop k = true) :
    ∃ ws, printProgress stop (N + 1) = Option.some ws ∧
      (∀ extra, printProgress stop (N + 1 + extra) = Option.some ws) ∧
      ∃ pre d b, ws = pre ++ [ProgressWrite.filledBar d b, ProgressWrite.newline] ∧
        ∀ w ∈ pre, isBarWrite w = true :=
  printProgressAux_total stop N hs N 0 1 7 (by omega)

/-- Witness for claim C7 with the stop flag raised from iteration 1 on. -/
theorem printProgress_terminates_witness :
    ∃ ws, printProgress (fun k => decide (1 ≤ k)) (1 + 1) = Option.some ws ∧
      (∀ extra, printProgress (fun k => decide (1 ≤ k)) (1 + 1 + extra) = Option.some ws) ∧
      ∃ pre d b, ws = pre ++ [ProgressWrite.filledBar d b, ProgressWrite.newline] ∧
        ∀ w ∈ pre, isBarWrite w = true :=
  printProgress_terminates (fun k => decide (1 ≤ k)) 1
    (by intro k hk; simpa using hk)
